import Mathlib

/-!
Verification of the PDF-to-Markdown converter script (`scripts/pdf-to-text.py`).

The script is embedded shallowly:

* the filesystem is a map from paths to optional file contents plus a
  writability predicate used to model write failures;
* the external PDF library (PyMuPDF / `fitz`) is an oracle mapping a path to
  either an open failure message or the list of per-page text-extraction
  results (each page extraction may itself fail, modelling an exception
  raised by `page.get_text()`);
* `extract_pdf_text` and `main` are translated statement by statement, and the
  outcome records the produced filesystem together with whether the document
  handle was opened and whether it was closed before the routine returned.

String helpers (`os.path.basename`, `os.path.splitext`, `str.strip`,
`"\n".join`) are modelled after CPython's `posixpath` implementations
(restricted to ASCII whitespace for `strip`).
-/

/-- The ASCII whitespace characters stripped by Python's `str.strip()`
(space, tab, newline, carriage return, vertical tab, form feed). -/
def isPySpace (c : Char) : Bool :=
  c == ' ' || c == '\t' || c == '\n' || c == '\r' ||
    c == Char.ofNat 11 || c == Char.ofNat 12

/-- Python `str.strip()`: remove leading and trailing whitespace. -/
def strip (s : String) : String :=
  ⟨((s.data.dropWhile isPySpace).reverse.dropWhile isPySpace).reverse⟩

/-- Index of the last occurrence of `c` in `l` (Python `str.rfind`,
with `none` for Python's `-1`). -/
def rfindIdx (c : Char) (l : List Char) : Option Nat :=
  ((l.enum.filter (fun p => p.2 == c)).map Prod.fst).getLast?

/-- Python `os.path.basename` (posix): everything after the last `/`. -/
def basename (p : String) : String :=
  ⟨(p.data.reverse.takeWhile (fun c => c != '/')).reverse⟩

/-- Python `os.path.splitext` (posix): split off the extension at the last
dot of the final path component, unless that component consists only of
leading dots up to that position. -/
def splitext (p : String) : String × String :=
  let l := p.data
  match rfindIdx '.' l with
  | none => (p, "")
  | some d =>
    let base : Nat :=
      match rfindIdx '/' l with
      | none => 0
      | some s => s + 1
    if base ≤ d ∧ (((l.drop base).take (d - base)).any (fun c => c != '.')) then
      (⟨l.take d⟩, ⟨l.drop d⟩)
    else
      (p, "")

/-- Python `"\n".join(lines)`. -/
def joinLines : List String → String
  | [] => ""
  | [l] => l
  | l :: ls => l ++ "\n" ++ joinLines ls

/-- The filesystem: file contents by path, plus which paths accept writes
(modelling `WriteFailure` on unwritable destinations). -/
structure FS where
  files : String → Option String
  writable : String → Bool

/-- The external PDF library oracle: opening a path either fails with a
message (`fitz.open` raising) or yields the document's pages, each page's
`get_text()` being either a raised error message or the extracted text. -/
def PdfLib : Type := String → Except String (List (Except String String))

/-- The errors the script can raise, mirroring the Python exceptions that
reach `main`'s handler. -/
inductive PdfError where
  | notFound (path : String)
  | parseFailure (msg : String)
  | pageError (msg : String)
  | writeFailure (path : String)
deriving DecidableEq, Repr

/-- `str(e)` for each modelled exception: `FileNotFoundError` carries the
message built at raise site; the others carry the library/OS message. -/
def PdfError.message : PdfError → String
  | .notFound p => "PDF not found: " ++ p
  | .parseFailure m => m
  | .pageError m => m
  | .writeFailure m => m

/-- Outcome of one call to `extract_pdf_text`: the returned path or raised
error, the resulting filesystem, and whether the document handle was opened
and closed before the call returned. -/
structure ExtractOutcome where
  result : Except PdfError String
  fs : FS
  opened : Bool
  closed : Bool

/-- The page loop (lines 40–47): `for i, page in enumerate(doc):` starting at
index `i`, extracting, stripping, and emitting a block for non-empty pages.
A failing `page.get_text()` propagates as an error. -/
def pageBlocks : Nat → List (Except String String) → Except String (List String)
  | _, [] => .ok []
  | _, .error msg :: _ => .error msg
  | i, .ok t :: rest =>
    match pageBlocks (i + 1) rest with
    | .error msg => .error msg
    | .ok tailBlocks =>
      let s := strip t
      if s = "" then .ok tailBlocks
      else .ok (["---", "## Page " ++ Nat.repr (i + 1), "", s, ""] ++ tailBlocks)

/-- The header lines (lines 34–38): title from the basename, blank line,
page count line, blank line. -/
def headerLines (pdf_path : String) (numPages : Nat) : List String :=
  ["# " ++ basename pdf_path, "", "*" ++ Nat.repr numPages ++ " pages*", ""]

/-- All lines of the Markdown output for a document whose pages all
extracted successfully. -/
def buildLines (pdf_path : String) (pages : List (Except String String)) :
    Except String (List String) :=
  match pageBlocks 0 pages with
  | .error msg => .error msg
  | .ok blocks => .ok (headerLines pdf_path pages.length ++ blocks)

/-- `extract_pdf_text(pdf_path, output_path=None)` (lines 22–56), translated
statement by statement. The document is closed at line 49 only after the
page loop finishes without raising; a page-extraction error therefore leaves
the handle open. -/
def extract_pdf_text (lib : PdfLib) (fs : FS) (pdf_path : String)
    (output_path : Option String) : ExtractOutcome :=
  if (fs.files pdf_path).isNone then
    ⟨.error (.notFound pdf_path), fs, false, false⟩
  else
    let out := output_path.getD ((splitext pdf_path).1 ++ ".md")
    match lib pdf_path with
    | .error msg => ⟨.error (.parseFailure msg), fs, false, false⟩
    | .ok pages =>
      match buildLines pdf_path pages with
      | .error msg => ⟨.error (.pageError msg), fs, true, false⟩
      | .ok lines =>
        let content := joinLines lines
        if fs.writable out then
          ⟨.ok out,
           { fs with files := fun q => if q = out then some content else fs.files q },
           true, true⟩
        else
          ⟨.error (.writeFailure out), fs, true, true⟩

/-- Result of one process run: exit code, stdout lines, stderr lines, and
the resulting filesystem. -/
structure ProcResult where
  exitCode : Nat
  stdout : List String
  stderr : List String
  fs : FS

/-- The usage message printed when the input argument is missing (line 61). -/
def usageLine : String := "Usage: pdf-to-text.py <input.pdf> [output.md]"

/-- The message printed by the import guard when PyMuPDF is missing
(line 18). -/
def importGuardLine : String := "ERROR: PyMuPDF not installed. Run: pip install pymupdf"

/-- `main()` (lines 59–72): argument handling, the call to
`extract_pdf_text`, and the catch-all error reporter. -/
def mainEntry (lib : PdfLib) (fs : FS) (argv : List String) : ProcResult :=
  if argv.length < 2 then
    ⟨1, [], [usageLine], fs⟩
  else
    let pdf_path := (argv.get? 1).getD ""
    let output_path := argv.get? 2
    let r := extract_pdf_text lib fs pdf_path output_path
    match r.result with
    | .ok path => ⟨0, [path], [], r.fs⟩
    | .error e => ⟨1, [], ["ERROR: " ++ e.message], r.fs⟩

/-- The whole script run as a process: the import guard (lines 15–19)
followed by `main`. `fitzAvailable` models whether PyMuPDF is installed. -/
def runScript (fitzAvailable : Bool) (lib : PdfLib) (fs : FS)
    (argv : List String) : ProcResult :=
  if fitzAvailable then mainEntry lib fs argv
  else ⟨1, [], [importGuardLine], fs⟩

/-- The five lines emitted for one page with non-empty trimmed text. -/
def blockOf (x : Nat × String) : List String :=
  ["---", "## Page " ++ Nat.repr (x.1 + 1), "", strip x.2, ""]

/-- The output lines as the specification describes them: a title line with
the base name, a blank line, the page-count line, a blank line, then — for
each page in ascending index order whose trimmed text is non-empty — a
horizontal rule, a `## Page <1-based index>` heading, a blank line, the
trimmed text, and a blank line. -/
def specLines (B : String) (texts : List String) : List String :=
  ["# " ++ B, "", "*" ++ Nat.repr texts.length ++ " pages*", ""] ++
    (texts.enum.filter (fun x => strip x.2 != "")).flatMap
      (fun x => ["---", "## Page " ++ Nat.repr (x.1 + 1), "", strip x.2, ""])

/-- The full output content as the specification describes it: the
newline-join of `specLines`. -/
def specContent (B : String) (texts : List String) : String :=
  joinLines (specLines B texts)

/-- The 0-based indices of the pages that contribute a block to the
output. -/
def emittedIdx (texts : List String) : List Nat :=
  (texts.enum.filter (fun x => strip x.2 != "")).map Prod.fst

/-- A filesystem holding one PDF at `a.pdf`, with every path writable. -/
def fs1 : FS := ⟨fun q => if q = "a.pdf" then some "%PDF" else none, fun _ => true⟩

/-- An empty filesystem, with every path writable. -/
def fs0 : FS := ⟨fun _ => none, fun _ => true⟩

/-- A library instance: `a.pdf` opens as a document with zero pages. -/
def lib1 : PdfLib := fun p => if p = "a.pdf" then .ok [] else .error "cannot open"

/-- A library instance: `a.pdf` opens as a three-page document whose middle
page has only whitespace text. -/
def lib2 : PdfLib := fun p =>
  if p = "a.pdf" then .ok [Except.ok "hello", Except.ok "  ", Except.ok "world"]
  else .error "cannot open"

/-- A library instance: every path opens as a one-page document whose page
raises on text extraction. -/
def libPageFail : PdfLib := fun _ => .ok [Except.error "boom"]

/-- A library instance: every open attempt raises. -/
def libBad : PdfLib := fun _ => .error "cannot open broken file"

/-! ### Supporting lemmas -/

theorem pageBlocks_map_ok (texts : List String) (i : Nat) :
    pageBlocks i (texts.map Except.ok) =
      .ok (((texts.enumFrom i).filter (fun x => strip x.2 != "")).flatMap blockOf) := by
  induction texts generalizing i with
  | nil => rfl
  | cons t ts ih =>
    simp only [List.map_cons, pageBlocks, ih, List.enumFrom_cons, List.filter_cons]
    by_cases h : strip t = ""
    · simp [h]
    · simp [h, blockOf]

theorem buildLines_map_ok (pdf_path : String) (texts : List String) :
    buildLines pdf_path (texts.map Except.ok) =
      .ok (specLines (basename pdf_path) texts) := by
  simp only [buildLines, pageBlocks_map_ok, specLines, headerLines, List.length_map,
    List.enum_eq_enumFrom]
  rfl

theorem extract_pdf_text_success (lib : PdfLib) (fs : FS) (pdf_path : String)
    (output_path : Option String) (texts : List String)
    (hex : (fs.files pdf_path).isSome)
    (hlib : lib pdf_path = .ok (texts.map Except.ok))
    (hw : fs.writable (output_path.getD ((splitext pdf_path).1 ++ ".md")) = true) :
    extract_pdf_text lib fs pdf_path output_path =
      ⟨.ok (output_path.getD ((splitext pdf_path).1 ++ ".md")),
       ⟨fun q => if q = output_path.getD ((splitext pdf_path).1 ++ ".md")
           then some (specContent (basename pdf_path) texts)
           else fs.files q,
        fs.writable⟩,
       true, true⟩ := by
  have h1 : (fs.files pdf_path).isNone = false := by
    cases hfp : fs.files pdf_path with
    | none => rw [hfp] at hex; cases hex
    | some v => rfl
  simp [extract_pdf_text, h1, hlib, buildLines_map_ok, hw, specContent]

theorem joinLines_mem (a : String) (xs : List String) (h : a ∈ xs) :
    ∃ s t, joinLines xs = s ++ a ++ t := by
  induction xs with
  | nil => cases h
  | cons x ys ih =>
    cases ys with
    | nil =>
      rcases List.mem_singleton.mp h with rfl
      exact ⟨"", "", by simp [joinLines, String.append_empty, String.empty_append]⟩
    | cons y zs =>
      rcases List.mem_cons.mp h with rfl | hmem
      · exact ⟨"", "\n" ++ joinLines (y :: zs),
          by simp [joinLines, String.empty_append, String.append_assoc]⟩
      · obtain ⟨s, t, hst⟩ := ih hmem
        exact ⟨x ++ "\n" ++ s, t,
          by simp [joinLines, hst, String.append_assoc]⟩

theorem joinLines_append_blank (xs : List String) (h : xs ≠ []) :
    joinLines (xs ++ [""]) = joinLines xs ++ "\n" := by
  induction xs with
  | nil => cases h rfl
  | cons x ys ih =>
    cases ys with
    | nil => simp [joinLines, String.append_empty]
    | cons y zs =>
      have hys := ih (by simp)
      calc joinLines ((x :: y :: zs) ++ [""])
          = x ++ "\n" ++ joinLines ((y :: zs) ++ [""]) := rfl
        _ = x ++ "\n" ++ (joinLines (y :: zs) ++ "\n") := by rw [hys]
        _ = (x ++ "\n" ++ joinLines (y :: zs)) ++ "\n" :=
              (String.append_assoc (x ++ "\n") (joinLines (y :: zs)) "\n").symm
        _ = joinLines (x :: y :: zs) ++ "\n" := rfl

theorem flatMap_pageBlock_concat (L : List (Nat × String)) (hL : L ≠ []) :
    ∃ zs, (L.flatMap
        (fun x => ["---", "## Page " ++ Nat.repr (x.1 + 1), "", strip x.2, ""])) =
      zs ++ [""] := by
  induction L with
  | nil => cases hL rfl
  | cons p M ih =>
    cases M with
    | nil =>
      exact ⟨["---", "## Page " ++ Nat.repr (p.1 + 1), "", strip p.2], by simp⟩
    | cons q N =>
      obtain ⟨zs, hz⟩ := ih (by simp)
      refine ⟨["---", "## Page " ++ Nat.repr (p.1 + 1), "", strip p.2, ""] ++ zs, ?_⟩
      rw [List.flatMap_cons, hz]
      simp

theorem specLines_concat (B : String) (texts : List String) :
    ∃ zs, specLines B texts = zs ++ [""] ∧ zs ≠ [] := by
  cases hL : texts.enum.filter (fun x => strip x.2 != "") with
  | nil =>
    exact ⟨["# " ++ B, "", "*" ++ Nat.repr texts.length ++ " pages*"],
      by simp [specLines, hL], by simp⟩
  | cons p M =>
    obtain ⟨zs, hz⟩ := flatMap_pageBlock_concat (p :: M) (by simp)
    refine ⟨["# " ++ B, "", "*" ++ Nat.repr texts.length ++ " pages*", ""] ++ zs, ?_, by simp⟩
    rw [specLines, hL, hz]
    simp

theorem specContent_concat_newline (B : String) (texts : List String) :
    ∃ s, specContent B texts = s ++ "\n" := by
  obtain ⟨zs, hz, hne⟩ := specLines_concat B texts
  exact ⟨joinLines zs, by rw [specContent, hz, joinLines_append_blank zs hne]⟩

theorem pagesLine_mem_specLines (B : String) (texts : List String) :
    ("*" ++ Nat.repr texts.length ++ " pages*") ∈ specLines B texts := by
  simp [specLines]

theorem emittedIdx_sorted (texts : List String) :
    List.Pairwise (· < ·) (emittedIdx texts) := by
  have hsub : List.Sublist (emittedIdx texts) (texts.enum.map Prod.fst) :=
    (List.filter_sublist _).map Prod.fst
  rw [List.enum_map_fst] at hsub
  exact (List.pairwise_lt_range _).sublist hsub

theorem emittedIdx_mem (texts : List String) (i : Nat) :
    i ∈ emittedIdx texts ↔ i < texts.length ∧ strip (texts.getD i "") ≠ "" := by
  unfold emittedIdx
  rw [List.mem_map]
  constructor
  · rintro ⟨x, hx, rfl⟩
    rw [List.mem_filter] at hx
    obtain ⟨hmem, hp⟩ := hx
    have hg : texts[x.1]? = some x.2 := List.mem_enum_iff_getElem?.mp hmem
    have hlt : x.1 < texts.length := (List.getElem?_eq_some.mp hg).1
    refine ⟨hlt, ?_⟩
    rw [List.getD_eq_getElem?_getD, hg]
    exact bne_iff_ne.mp hp
  · rintro ⟨hi, hs⟩
    refine ⟨(i, texts[i]), ?_, rfl⟩
    rw [List.mem_filter]
    refine ⟨List.mem_enum_iff_getElem?.mpr (List.getElem?_eq_getElem hi), ?_⟩
    rw [List.getD_eq_getElem?_getD, List.getElem?_eq_getElem hi] at hs
    exact bne_iff_ne.mpr hs

theorem emittedIdx_count (texts : List String) (i : Nat) (h : i ∈ emittedIdx texts) :
    (emittedIdx texts).count i = 1 :=
  List.count_eq_one_of_mem
    ((emittedIdx_sorted texts).imp (fun hlt => Nat.ne_of_lt hlt)) h

/-! ### Claims -/

/-- C1: for every PDF that opens successfully (page count `N`, base name
`B`) and whose resolved output path is writable, the content written by the
conversion is exactly the newline-join of: `# B`, a blank line, `*N pages*`,
a blank line, then — for each page in ascending order with non-empty trimmed
text — `---`, `## Page <1-based index>`, a blank line, the trimmed text, and
a blank line; in particular the output contains the string `*N pages*`. -/
theorem c1_output_content (lib : PdfLib) (fs : FS) (pdf_path : String)
    (o : Option String) (texts : List String)
    (hex : (fs.files pdf_path).isSome)
    (hlib : lib pdf_path = .ok (texts.map Except.ok))
    (hw : fs.writable (o.getD ((splitext pdf_path).1 ++ ".md")) = true) :
    (extract_pdf_text lib fs pdf_path o).fs.files
        (o.getD ((splitext pdf_path).1 ++ ".md")) =
      some (specContent (basename pdf_path) texts) ∧
    ∃ s t, specContent (basename pdf_path) texts =
      s ++ ("*" ++ Nat.repr texts.length ++ " pages*") ++ t := by
  refine ⟨?_, joinLines_mem _ _ (pagesLine_mem_specLines (basename pdf_path) texts)⟩
  rw [extract_pdf_text_success lib fs pdf_path o texts hex hlib hw]
  simp

theorem c1_output_content_witness :
    (extract_pdf_text lib2 fs1 "a.pdf" none).fs.files "a.md" =
      some (specContent "a.pdf" ["hello", "  ", "world"]) ∧
    ∃ s t, specContent "a.pdf" ["hello", "  ", "world"] =
      s ++ ("*" ++ Nat.repr 3 ++ " pages*") ++ t :=
  c1_output_content lib2 fs1 "a.pdf" none ["hello", "  ", "world"]
    (by rfl) (by rfl) (by rfl)

/-- C2: a page contributes a `---`/`## Page <i>` heading block to the output
iff its trimmed text is non-empty; the contributed indices are in ascending
document order, each appearing exactly once, and the written output is the
join of the header lines with exactly those blocks. -/
theorem c2_headings (lib : PdfLib) (fs : FS) (pdf_path : String)
    (o : Option String) (texts : List String)
    (hex : (fs.files pdf_path).isSome)
    (hlib : lib pdf_path = .ok (texts.map Except.ok))
    (hw : fs.writable (o.getD ((splitext pdf_path).1 ++ ".md")) = true) :
    (∀ i, i ∈ emittedIdx texts ↔ i < texts.length ∧ strip (texts.getD i "") ≠ "") ∧
    List.Pairwise (· < ·) (emittedIdx texts) ∧
    (∀ i, i ∈ emittedIdx texts → (emittedIdx texts).count i = 1) ∧
    buildLines pdf_path (texts.map Except.ok) =
      .ok (["# " ++ basename pdf_path, "", "*" ++ Nat.repr texts.length ++ " pages*", ""] ++
        (texts.enum.filter (fun x => strip x.2 != "")).flatMap blockOf) ∧
    (extract_pdf_text lib fs pdf_path o).fs.files
        (o.getD ((splitext pdf_path).1 ++ ".md")) =
      some (specContent (basename pdf_path) texts) := by
  refine ⟨emittedIdx_mem texts, emittedIdx_sorted texts, emittedIdx_count texts, ?_, ?_⟩
  · rw [buildLines_map_ok]; rfl
  · rw [extract_pdf_text_success lib fs pdf_path o texts hex hlib hw]
    simp

theorem c2_headings_witness :
    (∀ i, i ∈ emittedIdx ["hello", "  ", "world"] ↔
      i < 3 ∧ strip ((["hello", "  ", "world"] : List String).getD i "") ≠ "") ∧
    List.Pairwise (· < ·) (emittedIdx ["hello", "  ", "world"]) ∧
    (∀ i, i ∈ emittedIdx ["hello", "  ", "world"] →
      (emittedIdx ["hello", "  ", "world"]).count i = 1) ∧
    buildLines "a.pdf" (["hello", "  ", "world"].map Except.ok) =
      .ok (["# " ++ basename "a.pdf", "", "*" ++ Nat.repr 3 ++ " pages*", ""] ++
        ((["hello", "  ", "world"] : List String).enum.filter
          (fun x => strip x.2 != "")).flatMap blockOf) ∧
    (extract_pdf_text lib2 fs1 "a.pdf" none).fs.files "a.md" =
      some (specContent "a.pdf" ["hello", "  ", "world"]) :=
  c2_headings lib2 fs1 "a.pdf" none ["hello", "  ", "world"] (by rfl) (by rfl) (by rfl)

/-- C3: when the input path does not exist, the conversion fails with the
`FileNotFoundError` whose message names the missing path, before the
document is opened, without touching the filesystem, and the CLI run exits
with status 1. -/
theorem c3_not_found (lib : PdfLib) (fs : FS) (p : String) (o : Option String)
    (h : fs.files p = none) :
    extract_pdf_text lib fs p o = ⟨.error (.notFound p), fs, false, false⟩ ∧
    (PdfError.notFound p).message = "PDF not found: " ++ p ∧
    (runScript true lib fs ["pdf-to-text.py", p]).exitCode = 1 ∧
    (runScript true lib fs ["pdf-to-text.py", p]).stderr =
      ["ERROR: " ++ ("PDF not found: " ++ p)] ∧
    (runScript true lib fs ["pdf-to-text.py", p]).fs = fs := by
  have h1 : extract_pdf_text lib fs p none = ⟨.error (.notFound p), fs, false, false⟩ := by
    simp [extract_pdf_text, h]
  have h2 : extract_pdf_text lib fs p o = ⟨.error (.notFound p), fs, false, false⟩ := by
    simp [extract_pdf_text, h]
  refine ⟨h2, rfl, ?_, ?_, ?_⟩ <;>
    simp [runScript, mainEntry, h1, PdfError.message]

theorem c3_not_found_witness :
    extract_pdf_text lib1 fs0 "missing.pdf" none =
      ⟨.error (.notFound "missing.pdf"), fs0, false, false⟩ ∧
    (PdfError.notFound "missing.pdf").message = "PDF not found: " ++ "missing.pdf" ∧
    (runScript true lib1 fs0 ["pdf-to-text.py", "missing.pdf"]).exitCode = 1 ∧
    (runScript true lib1 fs0 ["pdf-to-text.py", "missing.pdf"]).stderr =
      ["ERROR: " ++ ("PDF not found: " ++ "missing.pdf")] ∧
    (runScript true lib1 fs0 ["pdf-to-text.py", "missing.pdf"]).fs = fs0 :=
  c3_not_found lib1 fs0 "missing.pdf" none (by rfl)

/-- C4 (counterexample): a document that opens but whose only page raises on
text extraction is left open — the outcome records `opened = true` and
`closed = false` — refuting the claim that the Document is closed on every
failure path, including a page-extraction error. -/
theorem c4_close_counterexample :
    (extract_pdf_text libPageFail fs1 "a.pdf" none).opened = true ∧
    (extract_pdf_text libPageFail fs1 "a.pdf" none).closed = false :=
  ⟨rfl, rfl⟩

/-- C4 (amended): whenever the document opens and every page's text
extraction succeeds, the Document is closed before the routine returns, on
the success path and on the write-failure path alike; when a page's
extraction raises, the close is skipped. -/
theorem c4_close_amended (lib : PdfLib) (fs : FS) (p : String) (o : Option String)
    (texts : List String)
    (hex : (fs.files p).isSome)
    (hlib : lib p = .ok (texts.map Except.ok)) :
    (extract_pdf_text lib fs p o).opened = true ∧
    (extract_pdf_text lib fs p o).closed = true := by
  have h1 : (fs.files p).isNone = false := by
    cases hfp : fs.files p with
    | none => rw [hfp] at hex; cases hex
    | some v => rfl
  cases hwb : fs.writable (o.getD ((splitext p).1 ++ ".md")) with
  | true =>
    rw [extract_pdf_text_success lib fs p o texts hex hlib hwb]
    exact ⟨rfl, rfl⟩
  | false =>
    simp [extract_pdf_text, h1, hlib, buildLines_map_ok, hwb]

theorem c4_close_witness :
    (extract_pdf_text lib2 fs1 "a.pdf" none).opened = true ∧
    (extract_pdf_text lib2 fs1 "a.pdf" none).closed = true :=
  c4_close_amended lib2 fs1 "a.pdf" none ["hello", "  ", "world"] (by rfl) (by rfl)

/-- C5 (counterexample): with the library available and the input argument
missing, the process exits 1 but its only stderr line is the usage message,
which does not begin with `ERROR: ` — refuting the claim that every failing
invocation prints an `ERROR: `-prefixed line. -/
theorem c5_error_line_counterexample :
    (runScript true lib1 fs1 ["pdf-to-text.py"]).exitCode = 1 ∧
    (runScript true lib1 fs1 ["pdf-to-text.py"]).stderr = [usageLine] ∧
    ¬ ∃ m, usageLine = "ERROR: " ++ m := by
  refine ⟨rfl, rfl, ?_⟩
  rintro ⟨m, hm⟩
  have hd : usageLine.data.take 7 = ("ERROR: " ++ m).data.take 7 := by rw [hm]
  rw [String.data_append] at hd
  have h7 : ("ERROR: ".data).length = 7 := rfl
  rw [List.take_left' h7] at hd
  exact absurd hd (by decide)

/-- C5 (amended): every failing run exits with code 1; the missing-argument
failure prints the usage line to standard error, and every other failure
(missing input file, parse failure, page-extraction failure, write failure,
missing PyMuPDF library) prints a single `ERROR: <message>` line to
standard error. -/
theorem c5_error_line_amended (avail : Bool) (lib : PdfLib) (fs : FS)
    (argv : List String)
    (h : (runScript avail lib fs argv).exitCode ≠ 0) :
    (runScript avail lib fs argv).exitCode = 1 ∧
    ((avail = true ∧ argv.length < 2 ∧
        (runScript avail lib fs argv).stderr = [usageLine]) ∨
      ∃ m, (runScript avail lib fs argv).stderr = ["ERROR: " ++ m]) := by
  cases avail with
  | false =>
    exact ⟨rfl, .inr ⟨"PyMuPDF not installed. Run: pip install pymupdf", rfl⟩⟩
  | true =>
    by_cases hlen : argv.length < 2
    · refine ⟨?_, .inl ⟨rfl, hlen, ?_⟩⟩ <;> simp [runScript, mainEntry, hlen]
    · cases hr : (extract_pdf_text lib fs (argv[1]?.getD "") argv[2]?).result with
      | ok path =>
        exfalso
        apply h
        simp [runScript, mainEntry, hlen, hr]
      | error e =>
        refine ⟨?_, .inr ⟨e.message, ?_⟩⟩ <;> simp [runScript, mainEntry, hlen, hr]

theorem c5_error_line_witness :
    (runScript true lib1 fs0 ["pdf-to-text.py", "missing.pdf"]).exitCode = 1 ∧
    ((true = true ∧ (["pdf-to-text.py", "missing.pdf"] : List String).length < 2 ∧
        (runScript true lib1 fs0 ["pdf-to-text.py", "missing.pdf"]).stderr = [usageLine]) ∨
      ∃ m, (runScript true lib1 fs0 ["pdf-to-text.py", "missing.pdf"]).stderr =
        ["ERROR: " ++ m]) :=
  c5_error_line_amended true lib1 fs0 ["pdf-to-text.py", "missing.pdf"] (by decide)

/-- C6: on success the conversion returns the resolved output path; when the
output argument is omitted the file is created at the input path with its
extension replaced by `.md` and that derived path is returned, and the CLI
prints it to standard output and exits 0. -/
theorem c6_default_output (lib : PdfLib) (fs : FS) (pdf_path : String)
    (texts : List String)
    (hex : (fs.files pdf_path).isSome)
    (hlib : lib pdf_path = .ok (texts.map Except.ok))
    (hw : fs.writable ((splitext pdf_path).1 ++ ".md") = true) :
    (extract_pdf_text lib fs pdf_path none).result =
      .ok ((splitext pdf_path).1 ++ ".md") ∧
    (extract_pdf_text lib fs pdf_path none).fs.files ((splitext pdf_path).1 ++ ".md") =
      some (specContent (basename pdf_path) texts) ∧
    (runScript true lib fs ["pdf-to-text.py", pdf_path]).exitCode = 0 ∧
    (runScript true lib fs ["pdf-to-text.py", pdf_path]).stdout =
      [(splitext pdf_path).1 ++ ".md"] ∧
    (∀ op, fs.writable op = true →
      (extract_pdf_text lib fs pdf_path (some op)).result = .ok op) := by
  have hs := extract_pdf_text_success lib fs pdf_path none texts hex hlib hw
  refine ⟨?_, ?_, ?_, ?_, ?_⟩
  · rw [hs]; rfl
  · rw [hs]; simp
  · simp [runScript, mainEntry, hs]
  · simp [runScript, mainEntry, hs]
  · intro op hop
    rw [extract_pdf_text_success lib fs pdf_path (some op) texts hex hlib hop]
    rfl

theorem c6_default_output_witness :
    (extract_pdf_text lib2 fs1 "a.pdf" none).result = .ok ((splitext "a.pdf").1 ++ ".md") ∧
    (extract_pdf_text lib2 fs1 "a.pdf" none).fs.files ((splitext "a.pdf").1 ++ ".md") =
      some (specContent (basename "a.pdf") ["hello", "  ", "world"]) ∧
    (runScript true lib2 fs1 ["pdf-to-text.py", "a.pdf"]).exitCode = 0 ∧
    (runScript true lib2 fs1 ["pdf-to-text.py", "a.pdf"]).stdout =
      [(splitext "a.pdf").1 ++ ".md"] ∧
    (∀ op, fs1.writable op = true →
      (extract_pdf_text lib2 fs1 "a.pdf" (some op)).result = .ok op) :=
  c6_default_output lib2 fs1 "a.pdf" ["hello", "  ", "world"] (by rfl) (by rfl) (by rfl)

/-- C7: for a fixed input path, output path, and library behavior, the
conversion is a pure function of the relevant filesystem contents: a second
run on the filesystem produced by a successful first run returns the same
path and leaves the filesystem byte-identical. -/
theorem c7_idempotent (lib : PdfLib) (fs : FS) (p : String) (o : Option String)
    (texts : List String)
    (hex : (fs.files p).isSome)
    (hlib : lib p = .ok (texts.map Except.ok))
    (hw : fs.writable (o.getD ((splitext p).1 ++ ".md")) = true) :
    (extract_pdf_text lib (extract_pdf_text lib fs p o).fs p o).result =
      (extract_pdf_text lib fs p o).result ∧
    (extract_pdf_text lib (extract_pdf_text lib fs p o).fs p o).fs.files =
      (extract_pdf_text lib fs p o).fs.files := by
  have h1 := extract_pdf_text_success lib fs p o texts hex hlib hw
  have hex2 : ((extract_pdf_text lib fs p o).fs.files p).isSome := by
    rw [h1]
    dsimp only
    by_cases hpo : p = o.getD ((splitext p).1 ++ ".md")
    · rw [if_pos hpo]
      rfl
    · rw [if_neg hpo]
      exact hex
  have hw2 : (extract_pdf_text lib fs p o).fs.writable
      (o.getD ((splitext p).1 ++ ".md")) = true := by
    rw [h1]
    exact hw
  have h2 := extract_pdf_text_success lib (extract_pdf_text lib fs p o).fs p o texts hex2 hlib hw2
  rw [h2, h1]
  refine ⟨rfl, ?_⟩
  funext q
  dsimp only
  by_cases hq : q = o.getD ((splitext p).1 ++ ".md")
  · simp [hq]
  · simp [hq]

theorem c7_idempotent_witness :
    (extract_pdf_text lib2 (extract_pdf_text lib2 fs1 "a.pdf" none).fs "a.pdf" none).result =
      (extract_pdf_text lib2 fs1 "a.pdf" none).result ∧
    (extract_pdf_text lib2 (extract_pdf_text lib2 fs1 "a.pdf" none).fs "a.pdf" none).fs.files =
      (extract_pdf_text lib2 fs1 "a.pdf" none).fs.files :=
  c7_idempotent lib2 fs1 "a.pdf" none ["hello", "  ", "world"] (by rfl) (by rfl) (by rfl)

/-- C8: the conversion is all-or-nothing with respect to the output file: on
every error — in particular the `ParseFailure` raised when the library
cannot open the document — the filesystem is left exactly as it was, so no
output file (and no partial output) is written; only a successful run
changes the filesystem. -/
theorem c8_all_or_nothing (lib : PdfLib) (fs : FS) (p : String) (o : Option String) :
    (∀ e, (extract_pdf_text lib fs p o).result = .error e →
      (extract_pdf_text lib fs p o).fs = fs) ∧
    (∀ m, (fs.files p).isSome → lib p = .error m →
      (extract_pdf_text lib fs p o).result = .error (.parseFailure m) ∧
      (extract_pdf_text lib fs p o).fs = fs) := by
  constructor
  · intro e he
    cases h1 : (fs.files p).isNone with
    | true => simp [extract_pdf_text, h1]
    | false =>
      cases hl : lib p with
      | error m => simp [extract_pdf_text, h1, hl]
      | ok pages =>
        cases hb : buildLines p pages with
        | error m => simp [extract_pdf_text, h1, hl, hb]
        | ok ls =>
          cases hwb : fs.writable (o.getD ((splitext p).1 ++ ".md")) with
          | true => simp [extract_pdf_text, h1, hl, hb, hwb] at he
          | false => simp [extract_pdf_text, h1, hl, hb, hwb]
  · intro m hsome hl
    have h1 : (fs.files p).isNone = false := by
      cases hfp : fs.files p with
      | none => rw [hfp] at hsome; cases hsome
      | some v => rfl
    refine ⟨?_, ?_⟩ <;> simp [extract_pdf_text, h1, hl]

theorem c8_all_or_nothing_witness :
    (∀ e, (extract_pdf_text libBad fs1 "a.pdf" none).result = .error e →
      (extract_pdf_text libBad fs1 "a.pdf" none).fs = fs1) ∧
    (∀ m, (fs1.files "a.pdf").isSome → libBad "a.pdf" = .error m →
      (extract_pdf_text libBad fs1 "a.pdf" none).result = .error (.parseFailure m) ∧
      (extract_pdf_text libBad fs1 "a.pdf" none).fs = fs1) :=
  c8_all_or_nothing libBad fs1 "a.pdf" none

/-- C9: a successful conversion creates or overwrites exactly the file at
the resolved output path: that path then holds the produced content, every
other path's contents are unchanged, and path writability is untouched. -/
theorem c9_frame (lib : PdfLib) (fs : FS) (p : String) (o : Option String)
    (out : String)
    (h : (extract_pdf_text lib fs p o).result = .ok out) :
    out = o.getD ((splitext p).1 ++ ".md") ∧
    (∃ c, (extract_pdf_text lib fs p o).fs.files out = some c) ∧
    (∀ q, q ≠ out → (extract_pdf_text lib fs p o).fs.files q = fs.files q) ∧
    (extract_pdf_text lib fs p o).fs.writable = fs.writable := by
  cases h1 : (fs.files p).isNone with
  | true => simp [extract_pdf_text, h1] at h
  | false =>
    cases hl : lib p with
    | error m => simp [extract_pdf_text, h1, hl] at h
    | ok pages =>
      cases hb : buildLines p pages with
      | error m => simp [extract_pdf_text, h1, hl, hb] at h
      | ok ls =>
        cases hwb : fs.writable (o.getD ((splitext p).1 ++ ".md")) with
        | false => simp [extract_pdf_text, h1, hl, hb, hwb] at h
        | true =>
          have hout : out = o.getD ((splitext p).1 ++ ".md") := by
            simp [extract_pdf_text, h1, hl, hb, hwb] at h
            exact h.symm
          subst hout
          refine ⟨rfl, ⟨joinLines ls, ?_⟩, ?_, ?_⟩
          · simp [extract_pdf_text, h1, hl, hb, hwb]
          · intro q hq
            simp [extract_pdf_text, h1, hl, hb, hwb, hq]
          · simp [extract_pdf_text, h1, hl, hb, hwb]

theorem c9_frame_witness :
    "a.md" = (none : Option String).getD ((splitext "a.pdf").1 ++ ".md") ∧
    (∃ c, (extract_pdf_text lib2 fs1 "a.pdf" none).fs.files "a.md" = some c) ∧
    (∀ q, q ≠ "a.md" → (extract_pdf_text lib2 fs1 "a.pdf" none).fs.files q = fs1.files q) ∧
    (extract_pdf_text lib2 fs1 "a.pdf" none).fs.writable = fs1.writable :=
  c9_frame lib2 fs1 "a.pdf" none "a.md" (by rfl)

/-- C10 (counterexample): for a zero-page document the written content is
`"# a.pdf\n\n*0 pages*\n"`, whose final character is a newline — the output
file does end with a newline character, refuting the claim that it never
does. -/
theorem c10_trailing_newline_counterexample :
    (extract_pdf_text lib1 fs1 "a.pdf" none).fs.files "a.md" =
      some "# a.pdf\n\n*0 pages*\n" ∧
    "# a.pdf\n\n*0 pages*\n".data.getLast? = some '\n' :=
  ⟨rfl, rfl⟩

/-- C10 (amended): the written content is the newline-join of the emitted
lines with single separators and no added terminator; because the final
emitted line is always a blank line (after the page-count line, or after the
last page block), the content always ends with a newline character. -/
theorem c10_trailing_newline_amended (lib : PdfLib) (fs : FS) (p : String)
    (o : Option String) (texts : List String)
    (hex : (fs.files p).isSome)
    (hlib : lib p = .ok (texts.map Except.ok))
    (hw : fs.writable (o.getD ((splitext p).1 ++ ".md")) = true) :
    (extract_pdf_text lib fs p o).fs.files (o.getD ((splitext p).1 ++ ".md")) =
      some (joinLines (specLines (basename p) texts)) ∧
    ∃ s, joinLines (specLines (basename p) texts) = s ++ "\n" := by
  refine ⟨?_, specContent_concat_newline (basename p) texts⟩
  rw [extract_pdf_text_success lib fs p o texts hex hlib hw]
  simp [specContent]

theorem c10_trailing_newline_witness :
    (extract_pdf_text lib2 fs1 "a.pdf" none).fs.files "a.md" =
      some (joinLines (specLines (basename "a.pdf") ["hello", "  ", "world"])) ∧
    ∃ s, joinLines (specLines (basename "a.pdf") ["hello", "  ", "world"]) = s ++ "\n" :=
  c10_trailing_newline_amended lib2 fs1 "a.pdf" none ["hello", "  ", "world"]
    (by rfl) (by rfl) (by rfl)
